import Mathlib

/-!
Verification of the Felix iptables feature-detection subsystem
(`src/iptables/feature_detect.go`) against its specification.

The file embeds, in order:
* the `versionparse.Version` value and its operations (the `versionparse`
  package is an external collaborator of this file; its behaviour is
  modelled from the spec where noted);
* the `Features` capability-flag struct and its computation
  (`refreshFeaturesLockHeld`);
* the override mechanism (`strconv.ParseBool` plus the reflective
  field-by-name assignment);
* the `FeatureDetector` cache state machine (`GetFeatures` /
  `RefreshFeatures`);
* the backend-selection heuristic (`countRulesInIptableOutput`,
  `findBestBinary`, `DetectBackend`), instrumented with explicit traces of
  binary lookups and command runs so that "never probed" properties are
  statable.

External process execution is modelled by explicit inputs: the iptables
`--version` output is an `Option String` (`none` = command error), the
kernel version source is an `Option String` reader result plus a parse
function, `lookPath` is a `String → Bool` predicate (binary exists), and
the command runner is a `String → String` map from binary name to its
standard output (a failed run yields whatever bytes were produced; the Go
code discards the error, so only the output matters).
-/

namespace Felix

/-- Modelled from the spec: `versionparse.Version` (package not under
`src/`) is an immutable dotted triplet of non-negative integers with a
total lexicographic order. -/
structure Version where
  major : Nat
  minor : Nat
  patch : Nat
  deriving DecidableEq, Repr

/-- Modelled from the spec: `Compare(a, b) → {less, equal, greater}`,
defined purely over the three integer fields, lexicographically; returns
-1/0/1 as the Go method does. -/
def Version.compare (a b : Version) : Int :=
  if a.major < b.major then -1
  else if b.major < a.major then 1
  else if a.minor < b.minor then -1
  else if b.minor < a.minor then 1
  else if a.patch < b.patch then -1
  else if b.patch < a.patch then 1
  else 0

/-- Split a character list on a separator character, keeping empty
segments (the semantics of Go `strings.Split` / `bytes.Split`). -/
def splitChar (sep : Char) : List Char → List (List Char)
  | [] => [[]]
  | c :: rest =>
    if c = sep then [] :: splitChar sep rest
    else
      match splitChar sep rest with
      | [] => [[c]]
      | h :: t => (c :: h) :: t

/-- Decimal digit run to number; `none` when empty or not all digits. -/
def digitsToNat (l : List Char) : Option Nat :=
  if l.isEmpty then none
  else if l.all Char.isDigit then
    some (l.foldl (fun acc c => acc * 10 + (c.toNat - 48)) 0)
  else none

/-- Modelled from the spec: `versionparse.NewVersion` accepts a numeric
"X.Y.Z" string and yields the corresponding triplet, failing otherwise. -/
def parseVersion (s : String) : Option Version :=
  match splitChar '.' s.data with
  | [a, b, c] =>
    match digitsToNat a, digitsToNat b, digitsToNat c with
    | some x, some y, some z => some ⟨x, y, z⟩
    | _, _, _ => none
  | _ => none

/-- Modelled from the spec: `versionparse.MustParseVersion`, used only on
fixed literals known to parse. -/
def mustParseVersion (s : String) : Version :=
  (parseVersion s).getD ⟨0, 0, 0⟩

/-- `v1Dot4Dot7`: the oldest iptables version ever supported. -/
def v1Dot4Dot7 : Version := mustParseVersion "1.4.7"

/-- `v1Dot6Dot0`: added --random-fully to SNAT. -/
def v1Dot6Dot0 : Version := mustParseVersion "1.6.0"

/-- `v1Dot6Dot2`: added --random-fully to MASQUERADE and the xtables lock
to iptables-restore. -/
def v1Dot6Dot2 : Version := mustParseVersion "1.6.2"

/-- `v3Dot10Dot0`: the oldest supported kernel. -/
def v3Dot10Dot0 : Version := mustParseVersion "3.10.0"

/-- `v3Dot14Dot0`: kernel support for random-fully. -/
def v3Dot14Dot0 : Version := mustParseVersion "3.14.0"

/-- `v5Dot7Dot0` (the Go variable name; value 5.15.0): the kernel fix for
checksum offloading. -/
def v5Dot7Dot0 : Version := mustParseVersion "5.15.0"

/-- The regexp `v(\d+\.\d+\.\d+)` anchored at the head of the character
list: if the list starts with `v` followed by maximal digit runs separated
by dots, return the captured group (the part after the `v`). Greedy `\d+`
followed by a mandatory `.` needs no backtracking: a shorter digit run
would leave a digit where the dot must match. -/
def matchCapture : List Char → Option (List Char)
  | 'v' :: rest =>
    let p1 := rest.span Char.isDigit
    if p1.1.isEmpty then none else
    match p1.2 with
    | '.' :: r2 =>
      let p2 := r2.span Char.isDigit
      if p2.1.isEmpty then none else
      match p2.2 with
      | '.' :: r4 =>
        let p3 := r4.span Char.isDigit
        if p3.1.isEmpty then none else
        some (p1.1 ++ '.' :: p2.1 ++ '.' :: p3.1)
      | _ => none
    | _ => none
  | _ => none

/-- Leftmost match of `v(\d+\.\d+\.\d+)`: scan positions left to right,
returning the first successful capture (the Go `FindStringSubmatch`
semantics for this pattern). -/
def findVXYZ : List Char → Option String
  | [] => none
  | c :: rest =>
    match matchCapture (c :: rest) with
    | some cap => some (String.mk cap)
    | none => findVXYZ rest

/-- `vXDotYDotZRegexp.FindStringSubmatch` applied to a string, yielding
the first capture group. -/
def findVersionMatch (s : String) : Option String :=
  findVXYZ s.data

/-- The `Features` struct: the four capability flags. -/
structure Features where
  SNATFullyRandom : Bool
  MASQFullyRandom : Bool
  RestoreSupportsLock : Bool
  ChecksumOffloadBroken : Bool
  deriving DecidableEq, Repr

/-- `getIptablesVersion`: run `iptables --version` (its outcome is the
`out` argument: `none` models a command error), extract the first
`vX.Y.Z` token, parse it; on any failure fall back to `v1Dot4Dot7`. -/
def getIptablesVersion (out : Option String) : Version :=
  match out with
  | none => v1Dot4Dot7
  | some s =>
    match findVersionMatch s with
    | none => v1Dot4Dot7
    | some m =>
      match parseVersion m with
      | none => v1Dot4Dot7
      | some v => v

/-- `getKernelVersion`: obtain a reader (the `readerRes` argument, `none`
models `GetKernelVersionReader` failing) and parse it with
`versionparse.GetKernelVersion` (the `parseKernel` argument, an external
collaborator; `none` models a parse error); on any failure fall back to
`v3Dot10Dot0`. -/
def getKernelVersion (readerRes : Option String)
    (parseKernel : String → Option Version) : Version :=
  match readerRes with
  | none => v3Dot10Dot0
  | some r =>
    match parseKernel r with
    | none => v3Dot10Dot0
    | some v => v

/-- The pure flag computation of `refreshFeaturesLockHeld` (lines
112-117): each flag compares the probed versions against the fixed
thresholds. -/
def computeFeatures (iptV kerV : Version) : Features :=
  { SNATFullyRandom :=
      decide (iptV.compare v1Dot6Dot0 ≥ 0) && decide (kerV.compare v3Dot14Dot0 ≥ 0)
  , MASQFullyRandom :=
      decide (iptV.compare v1Dot6Dot2 ≥ 0) && decide (kerV.compare v3Dot14Dot0 ≥ 0)
  , RestoreSupportsLock := decide (iptV.compare v1Dot6Dot2 ≥ 0)
  , ChecksumOffloadBroken := decide (kerV.compare v5Dot7Dot0 < 0) }

/-- Go `strconv.ParseBool`: accepts exactly these twelve strings. -/
def parseBool (s : String) : Option Bool :=
  if s = "1" ∨ s = "t" ∨ s = "T" ∨ s = "true" ∨ s = "TRUE" ∨ s = "True" then
    some true
  else if s = "0" ∨ s = "f" ∨ s = "F" ∨ s = "false" ∨ s = "FALSE" ∨ s = "False" then
    some false
  else none

/-- `reflect.ValueOf(&features).Elem().FieldByName(k)` followed by
`SetBool`: sets the field named `k` when it exists (exact, case-sensitive
match on the four exported field names), otherwise leaves the struct
untouched (`field.IsValid()` false). -/
def setFlag (f : Features) (k : String) (b : Bool) : Features :=
  match k with
  | "SNATFullyRandom" => { f with SNATFullyRandom := b }
  | "MASQFullyRandom" => { f with MASQFullyRandom := b }
  | "RestoreSupportsLock" => { f with RestoreSupportsLock := b }
  | "ChecksumOffloadBroken" => { f with ChecksumOffloadBroken := b }
  | _ => f

/-- Read the flag named `k`; `none` when no such field exists. Used only
in specifications. -/
def getFlag (k : String) (f : Features) : Option Bool :=
  match k with
  | "SNATFullyRandom" => some f.SNATFullyRandom
  | "MASQFullyRandom" => some f.MASQFullyRandom
  | "RestoreSupportsLock" => some f.RestoreSupportsLock
  | "ChecksumOffloadBroken" => some f.ChecksumOffloadBroken
  | _ => none

/-- Whether `k` names one of the four capability flags. -/
def knownFlag (k : String) : Bool :=
  k = "SNATFullyRandom" ∨ k = "MASQFullyRandom" ∨
    k = "RestoreSupportsLock" ∨ k = "ChecksumOffloadBroken"

/-- One iteration of the override loop (lines 119-144): parse the value;
on failure skip the entry; otherwise set the named flag when it exists,
else skip. (Logging is side effect only and does not affect the result.) -/
def applyOverride (f : Features) (k v : String) : Features :=
  match parseBool v with
  | none => f
  | some b => setFlag f k b

/-- The whole override loop over the override map (modelled as an
association list; Go map keys are distinct). -/
def applyOverrides (ovr : List (String × String)) (f : Features) : Features :=
  ovr.foldl (fun acc kv => applyOverride acc kv.1 kv.2) f

/-- The mutable state of a `FeatureDetector` relevant to the claims: the
cache, the construction-time override map and the `loggedOverrides`
flag. -/
structure DetectorState where
  featureCache : Option Features
  featureOverride : List (String × String)
  loggedOverrides : Bool
  deriving Repr

/-- The behaviour of the detector's two probing collaborators during one
refresh: the `iptables --version` output (`none` = command error), the
kernel version reader result and the kernel parse function. -/
structure ProbeEnv where
  iptablesOut : Option String
  kernelReaderRes : Option String
  parseKernel : String → Option Version

/-- `refreshFeaturesLockHeld`: probe both versions, compute the flags,
apply the overrides, set `loggedOverrides`, and replace the cache when it
is absent or differs from the new value. -/
def refreshFeaturesLockHeld (env : ProbeEnv) (s : DetectorState) : DetectorState :=
  let iptV := getIptablesVersion env.iptablesOut
  let kerV := getKernelVersion env.kernelReaderRes env.parseKernel
  let features := applyOverrides s.featureOverride (computeFeatures iptV kerV)
  let newCache :=
    match s.featureCache with
    | none => some features
    | some old => if old = features then s.featureCache else some features
  { s with featureCache := newCache, loggedOverrides := true }

/-- `GetFeatures`: refresh only when the cache is absent, then return the
cached value. The third component counts the probing cycles performed by
the call (a refresh runs exactly one probe of each collaborator). -/
def getFeatures (env : ProbeEnv) (s : DetectorState) :
    Features × DetectorState × Nat :=
  match s.featureCache with
  | some f => (f, s, 0)
  | none =>
    let s2 := refreshFeaturesLockHeld env s
    (s2.featureCache.getD ⟨false, false, false, false⟩, s2, 1)

/-- `RefreshFeatures`: unconditionally refresh. The second component
counts probing cycles. -/
def refreshFeatures (env : ProbeEnv) (s : DetectorState) : DetectorState × Nat :=
  (refreshFeaturesLockHeld env s, 1)

/-- `countRulesInIptableOutput`: split on newlines and count the lines
whose first byte is `-` (`len(x) >= 1 && x[0] == '-'`). -/
def countRulesInIptableOutput (s : String) : Nat :=
  (splitChar '\n' s.data).countP (fun l => l.head? == some '-')

/-- `findBestBinary` for a given `lookPath` predicate (`true` = the
binary exists; a lookup error is a negative result): try the
family-and-mode-specific name, then the family-specific generic name;
`none` models the terminal `Panic` when neither resolves. The second
component records the candidates actually queried, in order (the loop
stops at the first success). -/
def findBestBinary (lookPath : String → Bool) (ipVersion : Nat)
    (backendMode saveOrRestore : String) : Option String × List String :=
  let verPart := if ipVersion = 6 then "6" else ""
  let c1 := "ip" ++ verPart ++ "tables-" ++ backendMode ++ "-" ++ saveOrRestore
  let c2 := "ip" ++ verPart ++ "tables-" ++ saveOrRestore
  if lookPath c1 then (some c1, [c1])
  else if lookPath c2 then (some c2, [c1, c2])
  else (none, [c1, c2])

/-- The outcome of `DetectBackend`, instrumented: `result` is the
returned backend (`none` models the panic from `findBestBinary`),
`warned` records whether the specified/detected mismatch warning was
logged, `lookups` lists every binary name passed to `lookPath`, and
`runs` lists every binary actually executed, both in program order. -/
structure BackendDecision where
  result : Option String
  warned : Bool
  lookups : List String
  runs : List String
  deriving DecidableEq, Repr

/-- The detection phase of `DetectBackend` (lines 213-237): resolve and
run the legacy save binaries for both families; if they show at least 10
configuration lines declare "legacy" without touching nft mode, otherwise
resolve and run the nft binaries and pick the mode with more lines, ties
to "legacy". The command runner is `run : String → String` (binary name
to standard output; the Go code ignores the runner's error, keeping the
bytes). -/
def detectPhase (lookPath : String → Bool) (run : String → String) :
    Option String × List String × List String :=
  let f6 := findBestBinary lookPath 6 "legacy" "save"
  match f6.1 with
  | none => (none, f6.2, [])
  | some ip6LgcySave =>
    let f4 := findBestBinary lookPath 4 "legacy" "save"
    match f4.1 with
    | none => (none, f6.2 ++ f4.2, [])
    | some ip4LgcySave =>
      let ip6l := run ip6LgcySave
      let ip4l := run ip4LgcySave
      let legacyLines :=
        countRulesInIptableOutput ip6l + countRulesInIptableOutput ip4l
      if legacyLines ≥ 10 then
        (some "legacy", f6.2 ++ f4.2, [ip6LgcySave, ip4LgcySave])
      else
        let g6 := findBestBinary lookPath 6 "nft" "save"
        match g6.1 with
        | none => (none, f6.2 ++ f4.2 ++ g6.2, [ip6LgcySave, ip4LgcySave])
        | some ip6NftSave =>
          let g4 := findBestBinary lookPath 4 "nft" "save"
          match g4.1 with
          | none =>
            (none, f6.2 ++ f4.2 ++ g6.2 ++ g4.2, [ip6LgcySave, ip4LgcySave])
          | some ip4NftSave =>
            let ip6n := run ip6NftSave
            let ip4n := run ip4NftSave
            let nftLines :=
              countRulesInIptableOutput ip6n + countRulesInIptableOutput ip4n
            if legacyLines ≥ nftLines then
              (some "legacy", f6.2 ++ f4.2 ++ g6.2 ++ g4.2,
                [ip6LgcySave, ip4LgcySave, ip6NftSave, ip4NftSave])
            else
              (some "nft", f6.2 ++ f4.2 ++ g6.2 ++ g4.2,
                [ip6LgcySave, ip4LgcySave, ip6NftSave, ip4NftSave])

/-- Go `strings.ToLower` restricted to its ASCII action (the only
characters the claims involve): lowercase every character. -/
def toLowerAscii (s : String) : String :=
  String.mk (s.data.map Char.toLower)

/-- `DetectBackend` (lines 212-247): run the detection phase, lowercase
the caller's `specifiedBackend`, and return it when it is not "auto"
(warning on mismatch with the detected backend), else return the detected
backend. -/
def detectBackend (lookPath : String → Bool) (run : String → String)
    (specifiedBackend : String) : BackendDecision :=
  let ph := detectPhase lookPath run
  match ph.1 with
  | none => ⟨none, false, ph.2.1, ph.2.2⟩
  | some detectedBackend =>
    let sb := toLowerAscii specifiedBackend
    if sb ≠ "auto" then
      ⟨some sb, sb != detectedBackend, ph.2.1, ph.2.2⟩
    else
      ⟨some detectedBackend, false, ph.2.1, ph.2.2⟩

/-- Spec-side version order, written directly from the claim wording
"`t >= 1.6.0`": `versionLE a b` means `a ≤ b` lexicographically on
(major, minor, patch). -/
def versionLE (a b : Version) : Bool :=
  decide (a.major < b.major) ||
    (decide (a.major = b.major) &&
      (decide (a.minor < b.minor) ||
        (decide (a.minor = b.minor) && decide (a.patch ≤ b.patch))))

/-! ## Basic lemmas about versions -/

theorem v1Dot4Dot7_eq : v1Dot4Dot7 = ⟨1, 4, 7⟩ := by decide

theorem v1Dot6Dot0_eq : v1Dot6Dot0 = ⟨1, 6, 0⟩ := by decide

theorem v1Dot6Dot2_eq : v1Dot6Dot2 = ⟨1, 6, 2⟩ := by decide

theorem v3Dot10Dot0_eq : v3Dot10Dot0 = ⟨3, 10, 0⟩ := by decide

theorem v3Dot14Dot0_eq : v3Dot14Dot0 = ⟨3, 14, 0⟩ := by decide

theorem v5Dot7Dot0_eq : v5Dot7Dot0 = ⟨5, 15, 0⟩ := by decide

theorem versionLE_iff (a b : Version) :
    versionLE a b = true ↔
      (a.major < b.major ∨ (a.major = b.major ∧
        (a.minor < b.minor ∨ (a.minor = b.minor ∧ a.patch ≤ b.patch)))) := by
  simp [versionLE]

theorem compare_nonneg_iff (a b : Version) :
    a.compare b ≥ 0 ↔ versionLE b a = true := by
  rw [versionLE_iff]
  unfold Version.compare
  split_ifs <;> simp <;> omega

theorem compare_neg_iff (a b : Version) :
    a.compare b < 0 ↔ ¬ versionLE b a = true := by
  rw [← compare_nonneg_iff]
  omega

theorem decide_compare_nonneg (a b : Version) :
    decide (a.compare b ≥ 0) = versionLE b a := by
  rw [Bool.eq_iff_iff]
  simp [compare_nonneg_iff]

theorem decide_compare_neg (a b : Version) :
    decide (a.compare b < 0) = !versionLE b a := by
  rw [Bool.eq_iff_iff]
  simp [compare_neg_iff]

/-! ## Claim C1 -/

/-- C1: the computed flags are exactly `SNATFullyRandom = (t ≥ 1.6.0 ∧ k ≥
3.14.0)`, `MASQFullyRandom = (t ≥ 1.6.2 ∧ k ≥ 3.14.0)`,
`RestoreSupportsLock = (t ≥ 1.6.2)`, `ChecksumOffloadBroken = (k <
5.15.0)`; in particular for t = 1.6.2 and any k ≥ 5.15.0 the first three
flags are true and the fourth false, and for t = 1.4.7, k = 3.10.0 the
first three are false and the fourth true. -/
theorem c1_capability_flag_thresholds :
    (∀ t k : Version,
      (computeFeatures t k).SNATFullyRandom
          = (versionLE v1Dot6Dot0 t && versionLE v3Dot14Dot0 k) ∧
      (computeFeatures t k).MASQFullyRandom
          = (versionLE v1Dot6Dot2 t && versionLE v3Dot14Dot0 k) ∧
      (computeFeatures t k).RestoreSupportsLock = versionLE v1Dot6Dot2 t ∧
      (computeFeatures t k).ChecksumOffloadBroken = !versionLE v5Dot7Dot0 k) ∧
    (∀ k : Version, versionLE v5Dot7Dot0 k = true →
      computeFeatures v1Dot6Dot2 k = ⟨true, true, true, false⟩) ∧
    computeFeatures v1Dot4Dot7 v3Dot10Dot0 = ⟨false, false, false, true⟩ := by
  refine ⟨fun t k => ?_, fun k hk => ?_, by decide⟩
  · simp [computeFeatures, decide_compare_nonneg, decide_compare_neg]
  · simp only [versionLE_iff, v5Dot7Dot0_eq] at hk
    simp only [computeFeatures, decide_compare_nonneg, decide_compare_neg,
      Features.mk.injEq]
    refine ⟨?_, ?_, ?_, ?_⟩ <;>
      simp [versionLE_iff, v1Dot6Dot0_eq, v1Dot6Dot2_eq, v3Dot14Dot0_eq,
        v5Dot7Dot0_eq, v1Dot6Dot2_eq] <;> omega

/-- Witness for C1 at t = 1.6.2, k = 6.0.0. -/
theorem c1_capability_flag_thresholds_witness :
    computeFeatures v1Dot6Dot2 ⟨6, 0, 0⟩ = ⟨true, true, true, false⟩ :=
  c1_capability_flag_thresholds.2.1 ⟨6, 0, 0⟩ (by decide)

/-! ## Refresh cache lemma (shared) -/

/-- After a refresh the cache always holds exactly the newly computed,
override-adjusted Features (the "keep the old pointer" branch of the code
only fires when old and new are equal). -/
theorem refreshFeaturesLockHeld_cache (env : ProbeEnv) (s : DetectorState) :
    (refreshFeaturesLockHeld env s).featureCache =
      some (applyOverrides s.featureOverride
        (computeFeatures (getIptablesVersion env.iptablesOut)
          (getKernelVersion env.kernelReaderRes env.parseKernel))) := by
  unfold refreshFeaturesLockHeld
  cases h : s.featureCache with
  | none => simp [h]
  | some old =>
    simp only [h]
    split
    · next he => rw [he]
    · rfl

/-! ## Claim C5 -/

/-- C5: feature detection never fails: a failed or unparsable
`iptables --version` probe yields the constant 1.4.7, a failed or
unparsable kernel probe yields the constant 3.10.0, and every refresh
completes with a cached Features value. -/
theorem c5_probe_failure_fallbacks :
    getIptablesVersion none = v1Dot4Dot7 ∧
    getIptablesVersion (some "") = v1Dot4Dot7 ∧
    (∀ s : String, findVersionMatch s = none →
      getIptablesVersion (some s) = v1Dot4Dot7) ∧
    (∀ p : String → Option Version, getKernelVersion none p = v3Dot10Dot0) ∧
    (∀ (r : String) (p : String → Option Version), p r = none →
      getKernelVersion (some r) p = v3Dot10Dot0) ∧
    (∀ (env : ProbeEnv) (s : DetectorState),
      ∃ f : Features, (refreshFeatures env s).1.featureCache = some f) := by
  refine ⟨rfl, by decide, fun s h => ?_, fun p => rfl, fun r p h => ?_,
    fun env s => ?_⟩
  · simp [getIptablesVersion, h]
  · simp [getKernelVersion, h]
  · exact ⟨_, refreshFeaturesLockHeld_cache env s⟩

/-- Witness for C5: garbage tool output and an unparsable kernel source
both fall back to the respective constants. -/
theorem c5_probe_failure_fallbacks_witness :
    getIptablesVersion (some "iptables vX.Y.Z") = v1Dot4Dot7 ∧
    getKernelVersion (some "garbage") (fun _ => none) = v3Dot10Dot0 :=
  ⟨c5_probe_failure_fallbacks.2.2.1 "iptables vX.Y.Z" (by decide),
   c5_probe_failure_fallbacks.2.2.2.2.1 "garbage" (fun _ => none) rfl⟩

/-! ## Override lemmas (shared) -/

theorem applyOverrides_cons (hd : String × String) (tl : List (String × String))
    (f : Features) :
    applyOverrides (hd :: tl) f = applyOverrides tl (applyOverride f hd.1 hd.2) :=
  rfl

theorem getFlag_setFlag_same (f : Features) (k : String) (b : Bool)
    (h : knownFlag k = true) : getFlag k (setFlag f k b) = some b := by
  simp only [knownFlag, decide_eq_true_eq] at h
  rcases h with h | h | h | h <;> subst h <;> rfl

theorem getFlag_setFlag_other (f : Features) (k j : String) (b : Bool)
    (h : k ≠ j) : getFlag k (setFlag f j b) = getFlag k f := by
  unfold setFlag getFlag
  split <;> first
    | rfl
    | (split <;> simp_all)

theorem getFlag_applyOverride_other (f : Features) (k j v : String)
    (h : k ≠ j) : getFlag k (applyOverride f j v) = getFlag k f := by
  unfold applyOverride
  cases parseBool v with
  | none => rfl
  | some b => exact getFlag_setFlag_other f k j b h

theorem getFlag_applyOverrides_notMem (l : List (String × String)) (k : String)
    (f : Features) (h : k ∉ l.map Prod.fst) :
    getFlag k (applyOverrides l f) = getFlag k f := by
  induction l generalizing f with
  | nil => rfl
  | cons hd tl ih =>
    simp only [List.map_cons, List.mem_cons, not_or] at h
    rw [applyOverrides_cons, ih _ h.2,
      getFlag_applyOverride_other f k hd.1 hd.2 h.1]

theorem getFlag_applyOverrides_mem (l : List (String × String)) (f : Features)
    (k v : String) (b : Bool) (hnd : (l.map Prod.fst).Nodup)
    (hmem : (k, v) ∈ l) (hv : parseBool v = some b)
    (hk : knownFlag k = true) :
    getFlag k (applyOverrides l f) = some b := by
  induction l generalizing f with
  | nil => cases hmem
  | cons hd tl ih =>
    simp only [List.map_cons, List.nodup_cons] at hnd
    rw [applyOverrides_cons]
    rcases List.mem_cons.mp hmem with heq | hmem2
    · have hk1 : hd.1 = k := by rw [← heq]
      rw [getFlag_applyOverrides_notMem tl k _ (hk1 ▸ hnd.1), ← heq]
      simp only [applyOverride, hv]
      exact getFlag_setFlag_same f k b hk
    · exact ih _ hnd.2 hmem2

/-! ## Claim C6 -/

/-- C6: an override entry whose value parses as a boolean and whose name
is one of the four flag names forces that flag to the parsed value on
every refresh regardless of the computed result; an entry with an
unparsable value or an unknown name leaves the flags untouched; in
particular `SNATFullyRandom ↦ "false"` forces the flag false on every
refresh. -/
theorem c6_overrides_force_flags :
    (∀ (l : List (String × String)) (f : Features) (k v : String) (b : Bool),
      (l.map Prod.fst).Nodup → (k, v) ∈ l → parseBool v = some b →
      knownFlag k = true → getFlag k (applyOverrides l f) = some b) ∧
    (∀ (f : Features) (k v : String), parseBool v = none →
      applyOverride f k v = f) ∧
    (∀ (f : Features) (k v : String), knownFlag k = false →
      applyOverride f k v = f) ∧
    (∀ (env : ProbeEnv) (s : DetectorState),
      (s.featureOverride.map Prod.fst).Nodup →
      ("SNATFullyRandom", "false") ∈ s.featureOverride →
      ∃ f : Features, (refreshFeatures env s).1.featureCache = some f ∧
        f.SNATFullyRandom = false) := by
  refine ⟨getFlag_applyOverrides_mem, fun f k v h => ?_, fun f k v h => ?_,
    fun env s hnd hmem => ?_⟩
  · simp [applyOverride, h]
  · simp only [knownFlag, decide_eq_false_iff_not, not_or] at h
    unfold applyOverride
    cases parseBool v with
    | none => rfl
    | some b =>
      unfold setFlag
      split <;> simp_all
  · refine ⟨_, refreshFeaturesLockHeld_cache env s, ?_⟩
    have h := getFlag_applyOverrides_mem s.featureOverride
      (computeFeatures (getIptablesVersion env.iptablesOut)
        (getKernelVersion env.kernelReaderRes env.parseKernel))
      "SNATFullyRandom" "false" false hnd hmem (by decide) (by decide)
    simpa [getFlag] using h

/-- Witness for C6: a parse-forcing entry, an unparsable entry, an
unknown-name entry, and a full refresh with the forcing override. -/
theorem c6_overrides_force_flags_witness :
    getFlag "SNATFullyRandom"
        (applyOverrides [("SNATFullyRandom", "false")] ⟨true, true, true, false⟩)
      = some false ∧
    applyOverride ⟨true, true, true, false⟩ "MASQFullyRandom" "maybe"
      = ⟨true, true, true, false⟩ ∧
    applyOverride ⟨true, true, true, false⟩ "UnknownFlag" "true"
      = ⟨true, true, true, false⟩ ∧
    ∃ f : Features,
      (refreshFeatures ⟨some "iptables v1.6.2", some "k", fun _ => some ⟨5, 15, 0⟩⟩
          ⟨none, [("SNATFullyRandom", "false")], false⟩).1.featureCache = some f ∧
      f.SNATFullyRandom = false :=
  ⟨c6_overrides_force_flags.1 [("SNATFullyRandom", "false")]
      ⟨true, true, true, false⟩ "SNATFullyRandom" "false" false
      (by decide) (by decide) (by decide) (by decide),
   c6_overrides_force_flags.2.1 _ "MASQFullyRandom" "maybe" (by decide),
   c6_overrides_force_flags.2.2.1 _ "UnknownFlag" "true" (by decide),
   c6_overrides_force_flags.2.2.2
     ⟨some "iptables v1.6.2", some "k", fun _ => some ⟨5, 15, 0⟩⟩
     ⟨none, [("SNATFullyRandom", "false")], false⟩ (by decide) (by decide)⟩

/-! ## Claims C7 and C8 -/

/-- C7: with a populated cache `GetFeatures` performs zero probing cycles,
leaves the state untouched and returns the cached value; hence two
consecutive calls return equal Features with at most one probing cycle in
total. -/
theorem c7_get_features_uses_cache :
    (∀ (env : ProbeEnv) (s : DetectorState) (f : Features),
      s.featureCache = some f → getFeatures env s = (f, s, 0)) ∧
    (∀ (env : ProbeEnv) (s : DetectorState),
      (getFeatures env s).1 = (getFeatures env (getFeatures env s).2.1).1 ∧
      (getFeatures env s).2.2 + (getFeatures env (getFeatures env s).2.1).2.2 ≤ 1) := by
  have hcached : ∀ (env : ProbeEnv) (s : DetectorState) (f : Features),
      s.featureCache = some f → getFeatures env s = (f, s, 0) := by
    intro env s f h
    simp [getFeatures, h]
  refine ⟨hcached, fun env s => ?_⟩
  cases h : s.featureCache with
  | some f => simp [hcached env s f h]
  | none =>
    have hc := refreshFeaturesLockHeld_cache env s
    have h1 : getFeatures env s =
        (applyOverrides s.featureOverride
          (computeFeatures (getIptablesVersion env.iptablesOut)
            (getKernelVersion env.kernelReaderRes env.parseKernel)),
         refreshFeaturesLockHeld env s, 1) := by
      simp [getFeatures, h, hc]
    have h2 := hcached env (refreshFeaturesLockHeld env s) _ hc
    rw [h1, h2]
    simp

/-- Witness for C7 at a concrete populated cache. -/
theorem c7_get_features_uses_cache_witness :
    getFeatures ⟨none, none, fun _ => none⟩
        ⟨some ⟨true, false, true, false⟩, [], true⟩
      = (⟨true, false, true, false⟩,
         ⟨some ⟨true, false, true, false⟩, [], true⟩, 0) :=
  c7_get_features_uses_cache.1 ⟨none, none, fun _ => none⟩
    ⟨some ⟨true, false, true, false⟩, [], true⟩ ⟨true, false, true, false⟩ rfl

/-- C8: every `RefreshFeatures` call performs exactly one probing cycle
and recomputes the cached Features from the probe results alone,
regardless of the prior cache state. -/
theorem c8_refresh_always_reprobes :
    ∀ (env : ProbeEnv) (s : DetectorState),
      (refreshFeatures env s).2 = 1 ∧
      (refreshFeatures env s).1.featureCache =
        some (applyOverrides s.featureOverride
          (computeFeatures (getIptablesVersion env.iptablesOut)
            (getKernelVersion env.kernelReaderRes env.parseKernel))) :=
  fun env s => ⟨rfl, refreshFeaturesLockHeld_cache env s⟩

/-! ## Backend-selection lemmas (shared) -/

theorem fbbLegacy6_eq (lp : String → Bool) :
    findBestBinary lp 6 "legacy" "save" =
      (if lp "ip6tables-legacy-save" then
        (some "ip6tables-legacy-save", ["ip6tables-legacy-save"])
       else if lp "ip6tables-save" then
        (some "ip6tables-save", ["ip6tables-legacy-save", "ip6tables-save"])
       else (none, ["ip6tables-legacy-save", "ip6tables-save"])) := rfl

theorem fbbLegacy4_eq (lp : String → Bool) :
    findBestBinary lp 4 "legacy" "save" =
      (if lp "iptables-legacy-save" then
        (some "iptables-legacy-save", ["iptables-legacy-save"])
       else if lp "iptables-save" then
        (some "iptables-save", ["iptables-legacy-save", "iptables-save"])
       else (none, ["iptables-legacy-save", "iptables-save"])) := rfl

theorem fbbNft6_eq (lp : String → Bool) :
    findBestBinary lp 6 "nft" "save" =
      (if lp "ip6tables-nft-save" then
        (some "ip6tables-nft-save", ["ip6tables-nft-save"])
       else if lp "ip6tables-save" then
        (some "ip6tables-save", ["ip6tables-nft-save", "ip6tables-save"])
       else (none, ["ip6tables-nft-save", "ip6tables-save"])) := rfl

theorem fbbNft4_eq (lp : String → Bool) :
    findBestBinary lp 4 "nft" "save" =
      (if lp "iptables-nft-save" then
        (some "iptables-nft-save", ["iptables-nft-save"])
       else if lp "iptables-save" then
        (some "iptables-save", ["iptables-nft-save", "iptables-save"])
       else (none, ["iptables-nft-save", "iptables-save"])) := rfl

theorem fbbLegacy6_lookups (lp : String → Bool) :
    ∀ c ∈ (findBestBinary lp 6 "legacy" "save").2,
      c = "ip6tables-legacy-save" ∨ c = "ip6tables-save" := by
  rw [fbbLegacy6_eq]
  split_ifs <;> simp

theorem fbbLegacy4_lookups (lp : String → Bool) :
    ∀ c ∈ (findBestBinary lp 4 "legacy" "save").2,
      c = "iptables-legacy-save" ∨ c = "iptables-save" := by
  rw [fbbLegacy4_eq]
  split_ifs <;> simp

/-- When both legacy binaries resolve and their outputs show at least 10
configuration lines, the detection phase stops at "legacy" having run
only the two legacy binaries. -/
theorem detectPhase_shortCircuit (lp : String → Bool) (run : String → String)
    (b6 b4 : String)
    (h6 : (findBestBinary lp 6 "legacy" "save").1 = some b6)
    (h4 : (findBestBinary lp 4 "legacy" "save").1 = some b4)
    (hcount : countRulesInIptableOutput (run b6) +
      countRulesInIptableOutput (run b4) ≥ 10) :
    detectPhase lp run =
      (some "legacy",
       (findBestBinary lp 6 "legacy" "save").2 ++
         (findBestBinary lp 4 "legacy" "save").2,
       [b6, b4]) := by
  simp only [detectPhase, h6, h4]
  rw [if_pos hcount]

/-- When both legacy binaries resolve but show fewer than 10 lines and
both nft binaries resolve, the detection phase compares the two totals,
ties to "legacy". -/
theorem detectPhase_nftProbe (lp : String → Bool) (run : String → String)
    (b6 b4 n6 n4 : String)
    (h6 : (findBestBinary lp 6 "legacy" "save").1 = some b6)
    (h4 : (findBestBinary lp 4 "legacy" "save").1 = some b4)
    (hn6 : (findBestBinary lp 6 "nft" "save").1 = some n6)
    (hn4 : (findBestBinary lp 4 "nft" "save").1 = some n4)
    (hlt : countRulesInIptableOutput (run b6) +
      countRulesInIptableOutput (run b4) < 10) :
    detectPhase lp run =
      (some (if countRulesInIptableOutput (run b6) +
                 countRulesInIptableOutput (run b4) ≥
               countRulesInIptableOutput (run n6) +
                 countRulesInIptableOutput (run n4)
             then "legacy" else "nft"),
       (findBestBinary lp 6 "legacy" "save").2 ++
         (findBestBinary lp 4 "legacy" "save").2 ++
         (findBestBinary lp 6 "nft" "save").2 ++
         (findBestBinary lp 4 "nft" "save").2,
       [b6, b4, n6, n4]) := by
  simp only [detectPhase, h6, h4, hn6, hn4]
  rw [if_neg (by omega)]
  split_ifs <;> rfl

/-- With "auto" specified, `DetectBackend` returns exactly the phase
result. -/
theorem detectBackend_auto (lp : String → Bool) (run : String → String)
    (d : String) (L R : List String)
    (hp : detectPhase lp run = (some d, L, R)) :
    detectBackend lp run "auto" = ⟨some d, false, L, R⟩ := by
  simp only [detectBackend, hp]
  rfl

/-! ## Claim C2 -/

/-- C2: when the two legacy save outputs together contain at least 10
configuration lines, DetectBackend detects "legacy", runs only the two
legacy binaries, and never looks up (hence never runs) any nft-mode
binary. -/
theorem c2_legacy_short_circuit (lp : String → Bool) (run : String → String)
    (b6 b4 : String)
    (h6 : (findBestBinary lp 6 "legacy" "save").1 = some b6)
    (h4 : (findBestBinary lp 4 "legacy" "save").1 = some b4)
    (hcount : countRulesInIptableOutput (run b6) +
      countRulesInIptableOutput (run b4) ≥ 10) :
    (detectBackend lp run "auto").result = some "legacy" ∧
    (detectBackend lp run "auto").runs = [b6, b4] ∧
    ∀ c ∈ (detectBackend lp run "auto").lookups,
      c = "ip6tables-legacy-save" ∨ c = "ip6tables-save" ∨
        c = "iptables-legacy-save" ∨ c = "iptables-save" := by
  have hb := detectBackend_auto lp run "legacy" _ _
    (detectPhase_shortCircuit lp run b6 b4 h6 h4 hcount)
  rw [hb]
  refine ⟨rfl, rfl, fun c hc => ?_⟩
  rcases List.mem_append.mp hc with hc | hc
  · rcases fbbLegacy6_lookups lp c hc with h | h <;> simp [h]
  · rcases fbbLegacy4_lookups lp c hc with h | h <;> simp [h]

/-- Witness for C2: every binary resolves, each legacy family shows 6
configuration lines (12 total). -/
theorem c2_legacy_short_circuit_witness :
    (detectBackend (fun _ => true) (fun _ => "-1\n-2\n-3\n-4\n-5\n-6") "auto").result
      = some "legacy" ∧
    (detectBackend (fun _ => true) (fun _ => "-1\n-2\n-3\n-4\n-5\n-6") "auto").runs
      = ["ip6tables-legacy-save", "iptables-legacy-save"] :=
  have h := c2_legacy_short_circuit (fun _ => true)
    (fun _ => "-1\n-2\n-3\n-4\n-5\n-6")
    "ip6tables-legacy-save" "iptables-legacy-save" rfl rfl (by decide)
  ⟨h.1, h.2.1⟩

/-! ## Claim C3 -/

/-- C3: below the 10-line legacy threshold the nft binaries are probed
and the backend with the strictly larger configuration-line total wins,
ties going to "legacy"; configuration lines are exactly the output lines
whose first character is `-`. -/
theorem c3_larger_total_wins (lp : String → Bool) (run : String → String)
    (b6 b4 n6 n4 : String)
    (h6 : (findBestBinary lp 6 "legacy" "save").1 = some b6)
    (h4 : (findBestBinary lp 4 "legacy" "save").1 = some b4)
    (hn6 : (findBestBinary lp 6 "nft" "save").1 = some n6)
    (hn4 : (findBestBinary lp 4 "nft" "save").1 = some n4)
    (hlt : countRulesInIptableOutput (run b6) +
      countRulesInIptableOutput (run b4) < 10) :
    (detectBackend lp run "auto").result =
      some (if countRulesInIptableOutput (run b6) +
                 countRulesInIptableOutput (run b4) ≥
               countRulesInIptableOutput (run n6) +
                 countRulesInIptableOutput (run n4)
            then "legacy" else "nft") ∧
    (detectBackend lp run "auto").runs = [b6, b4, n6, n4] ∧
    ∀ s : String, countRulesInIptableOutput s =
      ((splitChar '\n' s.data).filter (fun l => l.head? == some '-')).length := by
  have hb := detectBackend_auto lp run _ _ _
    (detectPhase_nftProbe lp run b6 b4 n6 n4 h6 h4 hn6 hn4 hlt)
  rw [hb]
  exact ⟨rfl, rfl, fun s => by
    simp [countRulesInIptableOutput, List.countP_eq_length_filter]⟩

/-- Witness for C3: legacy total 3 versus nft total 7 yields "nft". -/
theorem c3_larger_total_wins_witness :
    (detectBackend (fun _ => true)
        (fun b => if b = "ip6tables-nft-save" then "-1\n-2\n-3\n-4\n-5\n-6\n-7"
          else if b = "iptables-legacy-save" then "-1\n-2\n-3" else "")
        "auto").result = some "nft" := by
  have h := (c3_larger_total_wins (fun _ => true)
    (fun b => if b = "ip6tables-nft-save" then "-1\n-2\n-3\n-4\n-5\n-6\n-7"
      else if b = "iptables-legacy-save" then "-1\n-2\n-3" else "")
    "ip6tables-legacy-save" "iptables-legacy-save"
    "ip6tables-nft-save" "iptables-nft-save" rfl rfl rfl rfl (by decide)).1
  exact h.trans (by decide)

/-! ## Selection lemmas (shared by C4 and C10) -/

/-- Full characterization of the selection step: the returned backend is
the lowercased preference unless that is "auto", and the warning fires
exactly when a non-"auto" lowercased preference differs from the detected
backend. -/
theorem detectBackend_selection (lp : String → Bool) (run : String → String)
    (sb d : String) (L R : List String)
    (hp : detectPhase lp run = (some d, L, R)) :
    detectBackend lp run sb =
      ⟨some (if toLowerAscii sb = "auto" then d else toLowerAscii sb),
       decide (toLowerAscii sb ≠ "auto") && (toLowerAscii sb != d), L, R⟩ := by
  simp only [detectBackend, hp]
  by_cases h : toLowerAscii sb = "auto"
  · simp [h]
  · simp [h]

/-! ## Claim C4 -/

/-- C4 counterexample: the preference "LEGACY" is not the "auto" sentinel,
yet DetectBackend returns "legacy", not the caller-supplied string
"LEGACY" verbatim. -/
theorem c4_verbatim_counterexample :
    ("LEGACY" : String) ≠ "auto" ∧
    (detectBackend (fun _ => true) (fun _ => "") "LEGACY").result = some "legacy" ∧
    (detectBackend (fun _ => true) (fun _ => "") "LEGACY").result ≠ some "LEGACY" := by
  decide

/-- C4 (amended): DetectBackend lowercases the preference before use; for
every preference whose *lowercase form* is not "auto" it returns the
*lowercased* preference (a warning is emitted exactly when that differs
from the detected backend, but the preference still wins); when the
lowercase form is "auto" the detected backend is returned. -/
theorem c4_preference_honored_lowercased (lp : String → Bool)
    (run : String → String) (sb d : String) (L R : List String)
    (hp : detectPhase lp run = (some d, L, R)) :
    (toLowerAscii sb ≠ "auto" →
      (detectBackend lp run sb).result = some (toLowerAscii sb) ∧
      ((detectBackend lp run sb).warned = true ↔ toLowerAscii sb ≠ d)) ∧
    (toLowerAscii sb = "auto" →
      (detectBackend lp run sb).result = some d ∧
      (detectBackend lp run sb).warned = false) := by
  rw [detectBackend_selection lp run sb d L R hp]
  constructor
  · intro h
    simp [h]
  · intro h
    simp [h]

/-- Witness for C4 (amended): preference "NFT" with detected backend
"legacy" returns "nft" and warns. -/
theorem c4_preference_honored_lowercased_witness :
    (detectBackend (fun _ => true) (fun _ => "") "NFT").result = some "nft" ∧
    (detectBackend (fun _ => true) (fun _ => "") "NFT").warned = true := by
  have h := (c4_preference_honored_lowercased (fun _ => true) (fun _ => "")
    "NFT" "legacy"
    ["ip6tables-legacy-save", "iptables-legacy-save",
      "ip6tables-nft-save", "iptables-nft-save"]
    ["ip6tables-legacy-save", "iptables-legacy-save",
      "ip6tables-nft-save", "iptables-nft-save"]
    (by decide)).1 (by decide)
  exact ⟨h.1.trans (by decide), h.2.mpr (by decide)⟩

/-! ## Claim C10 -/

/-- C10: DetectBackend lowercases the preference before any use: every
preference whose lowercase form is "auto" selects automatic detection,
and every other preference is returned in lowercased form — even when it
is neither "legacy" nor "nft". -/
theorem c10_preference_lowercased (lp : String → Bool) (run : String → String)
    (sb d : String) (L R : List String)
    (hp : detectPhase lp run = (some d, L, R)) :
    (detectBackend lp run sb).result =
      some (if toLowerAscii sb = "auto" then d else toLowerAscii sb) := by
  rw [detectBackend_selection lp run sb d L R hp]

/-- Witness for C10: "Foo" is returned as "foo" (not a backend
identifier), and "AUTO" selects the detected backend. -/
theorem c10_preference_lowercased_witness :
    (detectBackend (fun _ => true) (fun _ => "") "Foo").result = some "foo" ∧
    (detectBackend (fun _ => true) (fun _ => "") "AUTO").result = some "legacy" := by
  constructor
  · exact (c10_preference_lowercased (fun _ => true) (fun _ => "")
      "Foo" "legacy"
      ["ip6tables-legacy-save", "iptables-legacy-save",
        "ip6tables-nft-save", "iptables-nft-save"]
      ["ip6tables-legacy-save", "iptables-legacy-save",
        "ip6tables-nft-save", "iptables-nft-save"]
      (by decide)).trans (by decide)
  · exact (c10_preference_lowercased (fun _ => true) (fun _ => "")
      "AUTO" "legacy"
      ["ip6tables-legacy-save", "iptables-legacy-save",
        "ip6tables-nft-save", "iptables-nft-save"]
      ["ip6tables-legacy-save", "iptables-legacy-save",
        "ip6tables-nft-save", "iptables-nft-save"]
      (by decide)).trans (by decide)

/-! ## Claim C9 -/

/-- The detection phase panics exactly when a required binary resolution
exhausts its candidates. -/
theorem detectPhase_none_iff (lp : String → Bool) (run : String → String) :
    (detectPhase lp run).1 = none ↔
      ((findBestBinary lp 6 "legacy" "save").1 = none ∨
       (findBestBinary lp 4 "legacy" "save").1 = none ∨
       (∃ b6 b4 : String,
         (findBestBinary lp 6 "legacy" "save").1 = some b6 ∧
         (findBestBinary lp 4 "legacy" "save").1 = some b4 ∧
         countRulesInIptableOutput (run b6) +
           countRulesInIptableOutput (run b4) < 10 ∧
         ((findBestBinary lp 6 "nft" "save").1 = none ∨
          (findBestBinary lp 4 "nft" "save").1 = none))) := by
  cases h6 : (findBestBinary lp 6 "legacy" "save").1 with
  | none => simp [detectPhase, h6]
  | some b6 =>
    cases h4 : (findBestBinary lp 4 "legacy" "save").1 with
    | none => simp [detectPhase, h6, h4]
    | some b4 =>
      by_cases hge : countRulesInIptableOutput (run b6) +
          countRulesInIptableOutput (run b4) ≥ 10
      · rw [detectPhase_shortCircuit lp run b6 b4 h6 h4 hge]
        simp [h6, h4]
        exact fun hlt => absurd hlt (by omega)
      · cases hn6 : (findBestBinary lp 6 "nft" "save").1 with
        | none =>
          simp [detectPhase, h6, h4, hn6, if_neg hge]
          omega
        | some n6 =>
          cases hn4 : (findBestBinary lp 4 "nft" "save").1 with
          | none =>
            simp [detectPhase, h6, h4, hn6, hn4, if_neg hge]
            omega
          | some n4 =>
            rw [detectPhase_nftProbe lp run b6 b4 n6 n4 h6 h4 hn6 hn4
              (by omega)]
            simp [h6, h4, hn6, hn4]

/-- The returned backend is `none` (a panic) exactly when the detection
phase panicked: the selection step never fails. -/
theorem detectBackend_result_none (lp : String → Bool) (run : String → String)
    (sb : String) :
    (detectBackend lp run sb).result = none ↔ (detectPhase lp run).1 = none := by
  unfold detectBackend
  cases h : (detectPhase lp run).1 with
  | none => simp [h]
  | some d =>
    simp only [h]
    split_ifs <;> simp

/-- C9: binary resolution prefers the family-and-mode-specific name, falls
back to the family-specific generic name, and is fatal when neither
resolves; and that exhaustion is the only fatal condition on the
backend-detection path (for any specified backend). -/
theorem c9_binary_resolution_fallback :
    (∀ (lp : String → Bool) (ip : Nat) (m sr c1 c2 : String),
      c1 = "ip" ++ (if ip = 6 then "6" else "") ++ "tables-" ++ m ++ "-" ++ sr →
      c2 = "ip" ++ (if ip = 6 then "6" else "") ++ "tables-" ++ sr →
      (lp c1 = true → findBestBinary lp ip m sr = (some c1, [c1])) ∧
      (lp c1 = false → lp c2 = true →
        findBestBinary lp ip m sr = (some c2, [c1, c2])) ∧
      (lp c1 = false → lp c2 = false →
        findBestBinary lp ip m sr = (none, [c1, c2]))) ∧
    (∀ (lp : String → Bool) (run : String → String) (sb : String),
      (detectBackend lp run sb).result = none ↔
        ((findBestBinary lp 6 "legacy" "save").1 = none ∨
         (findBestBinary lp 4 "legacy" "save").1 = none ∨
         (∃ b6 b4 : String,
           (findBestBinary lp 6 "legacy" "save").1 = some b6 ∧
           (findBestBinary lp 4 "legacy" "save").1 = some b4 ∧
           countRulesInIptableOutput (run b6) +
             countRulesInIptableOutput (run b4) < 10 ∧
           ((findBestBinary lp 6 "nft" "save").1 = none ∨
            (findBestBinary lp 4 "nft" "save").1 = none)))) := by
  constructor
  · intro lp ip m sr c1 c2 h1 h2
    subst h1
    subst h2
    refine ⟨fun ht => ?_, fun hf ht => ?_, fun hf1 hf2 => ?_⟩ <;>
      simp [findBestBinary, *]
  · intro lp run sb
    rw [detectBackend_result_none lp run sb]
    exact detectPhase_none_iff lp run

/-- Witness for C9: the specific binary resolves directly; with nothing
resolvable the whole detection is fatal. -/
theorem c9_binary_resolution_fallback_witness :
    findBestBinary (fun _ => true) 6 "legacy" "save"
      = (some "ip6tables-legacy-save", ["ip6tables-legacy-save"]) ∧
    (detectBackend (fun _ => false) (fun _ => "") "auto").result = none :=
  ⟨(c9_binary_resolution_fallback.1 (fun _ => true) 6 "legacy" "save"
      "ip6tables-legacy-save" "ip6tables-save" (by decide) (by decide)).1 rfl,
   (c9_binary_resolution_fallback.2 (fun _ => false) (fun _ => "") "auto").mpr
     (Or.inl (by decide))⟩

end Felix
